import Mathlib

/-!
Verification of the SentinelHub download script
(`src/Download/SentinelHub/download_data.py`).

The script is a linear orchestration of external-library calls:
authenticate from a 3-line credential file, search the catalog,
interactively select scenes, download each accepted scene.  We embed the
script shallowly: the external library (SentinelHub client, OS calls,
stdin) is represented by explicit data — a list of file lines, a list of
interactive inputs, an abstract remote-catalog function, an abstract
`bbox_to_dimensions` function, a filesystem modelled as a list of
existing paths, and `Except`-valued outcomes for the fallible external
calls.  Effects (mkdir, request submission, data save, prompts,
downloads, process exit) are reified as events so ordering claims can be
stated.
-/

namespace SentinelDL

/-- Coordinate reference systems used by the script (only WGS84 appears). -/
inductive CRS where
  | wgs84
deriving DecidableEq, Repr

/-- Data collections used by the script (only Sentinel-2 L2A appears). -/
inductive DataCollection where
  | sentinel2L2A
deriving DecidableEq, Repr

/-- Output MIME types used by the script (only TIFF appears). -/
inductive MimeType where
  | tiff
deriving DecidableEq, Repr

/-- Mosaicking orders used by the script (only least cloud cover appears). -/
inductive MosaickingOrder where
  | leastCC
deriving DecidableEq, Repr

/-- `BBox((x_min, y_min, x_max, y_max), crs=...)` from the sentinelhub
library: four numeric coordinates plus a CRS tag. -/
structure BBox where
  x_min : ℚ
  y_min : ℚ
  x_max : ℚ
  y_max : ℚ
  crs : CRS
deriving DecidableEq, Repr

/-- The `SHConfig` object: the three credential fields the script assigns. -/
structure SHConfig where
  instance_id : String := ""
  sh_client_id : String := ""
  sh_client_secret : String := ""
deriving DecidableEq, Repr

/-- The `parameters` dict built in `authenticate` (lines 72-76). -/
structure Credentials where
  instance_id : String
  client_id : String
  client_secret : String
deriving DecidableEq, Repr

/-- The three interactive fallback answers `authenticate` would read with
`input(...)` (lines 94-96). -/
structure Prompts where
  instance_id : String
  client_id : String
  client_secret : String
deriving DecidableEq, Repr

/-- A catalog search result: the script requests exactly the fields
`id`, `properties.datetime`, `properties.eo:cloud_cover`. -/
structure SceneRecord where
  id : String
  datetime : String
  cloud_cover : ℚ
deriving DecidableEq, Repr

/-- Python `str.strip()` with no argument: remove leading and trailing
whitespace. -/
def pyStrip (s : String) : String :=
  String.mk (((s.data.dropWhile Char.isWhitespace).reverse.dropWhile
    Char.isWhitespace).reverse)

/-- `file.readline()` over a file modelled as its list of lines: returns
the next line (empty string at end of file) and the rest of the file. -/
def readline : List String → String × List String
  | [] => ("", [])
  | l :: ls => (l, ls)

/-- The credentials read and trimmed by `authenticate` (lines 72-76):
three `readline().strip()` calls assigned in file order to
`instance_id`, `client_id`, `client_secret`. -/
def readCredentials (lines : List String) : Credentials :=
  let p1 := readline lines
  let p2 := readline p1.2
  let p3 := readline p2.2
  { instance_id := pyStrip p1.1, client_id := pyStrip p2.1
    client_secret := pyStrip p3.1 }

/-- The `SHConfig` as assigned from the file credentials (lines 81-84),
the value passed to `config.save()`. -/
def fileConfig (lines : List String) : SHConfig :=
  let parameters := readCredentials lines
  { instance_id := parameters.instance_id
    sh_client_id := parameters.client_id
    sh_client_secret := parameters.client_secret }

/-- `authenticate(file)` (lines 60-98).  Reads and trims three lines,
assigns them to a fresh `SHConfig`, calls `config.save()` (whose outcome
is supplied by the environment; a raised exception aborts the function),
then, if client id or client secret is empty, overwrites the in-memory
config from the three interactive prompts.  Returns the final in-memory
config together with the persisted snapshot (what `save` wrote). -/
def authenticate (lines : List String) (prompts : Prompts)
    (saveOutcome : Except String Unit) : Except String (SHConfig × Option SHConfig) :=
  let parameters := readCredentials lines
  let config : SHConfig :=
    { instance_id := parameters.instance_id
      sh_client_id := parameters.client_id
      sh_client_secret := parameters.client_secret }
  match saveOutcome with
  | Except.error e => Except.error e
  | Except.ok _ =>
    let saved : Option SHConfig := some config
    let config :=
      if config.sh_client_id = "" ∨ config.sh_client_secret = "" then
        { instance_id := prompts.instance_id
          sh_client_id := prompts.client_id
          sh_client_secret := prompts.client_secret }
      else config
    Except.ok (config, saved)

/-- A catalog query as issued by `search_data` (lines 106-117): the
collection, bbox, time interval, filter string, field projection and the
config the catalog was constructed from. -/
structure SearchQuery where
  data_collection : DataCollection
  bbox : BBox
  time : String × String
  filter : String
  includeFields : List String
  excludeFields : List String
  config : SHConfig

/-- `search_data(bbox, time_interval, config)` (lines 106-117): builds one
catalog query with the fixed filter `"eo:cloud_cover < 2"` and the fixed
field projection, materializes the remote iterator with `list(...)`, and
returns the results together with the list of queries issued (to state
that exactly one query is made). -/
def search_data (remote : SearchQuery → List SceneRecord) (bbox : BBox)
    (time_interval : String × String) (config : SHConfig) :
    List SceneRecord × List SearchQuery :=
  let q : SearchQuery :=
    { data_collection := DataCollection.sentinel2L2A
      bbox := bbox
      time := time_interval
      filter := "eo:cloud_cover < 2"
      includeFields := ["id", "properties.datetime", "properties.eo:cloud_cover"]
      excludeFields := []
      config := config }
  (remote q, [q])

/-- Structured content of the `evalscript_all_bands` string literal
(lines 149-169): input bands, input units, output band count and output
sample type. -/
structure EvalScript where
  inputBands : List String
  inputUnits : String
  outputBands : Nat
  sampleType : String
deriving DecidableEq, Repr

/-- The evaluation script built by `download_data` (lines 149-169):
input bands B02, B03, B04 in units DN; output 3 bands, sample type INT16. -/
def evalscript_all_bands : EvalScript :=
  { inputBands := ["B02", "B03", "B04"]
    inputUnits := "DN"
    outputBands := 3
    sampleType := "INT16" }

/-- The `SentinelHubRequest` constructed by `download_data` (lines 172-187). -/
structure SHRequest where
  data_folder : String
  evalscript : EvalScript
  data_collection : DataCollection
  time_interval : String × String
  maxcc : ℚ
  mosaicking_order : MosaickingOrder
  responses : List (String × MimeType)
  bbox : BBox
  size : Nat × Nat
  config : SHConfig
deriving DecidableEq, Repr

/-- `os.path.join` for the two-component joins the script performs. -/
def joinPath (a b : String) : String := a ++ "/" ++ b

/-- The filesystem, modelled as the list of existing paths. -/
abbrev FS := List String

/-- `os.path.exists`: whether the path is among the existing ones. -/
def pathExists (fs : FS) (p : String) : Bool := decide (p ∈ fs)

/-- `os.mkdir`: raises `FileExistsError` when the path already exists,
otherwise adds it. -/
def mkdirFS (fs : FS) (p : String) : Except String FS :=
  if pathExists fs p then Except.error ("FileExistsError: " ++ p)
  else Except.ok (p :: fs)

/-- Effects performed by `download_data`, in order. -/
inductive DlEvent where
  | mkdirEv (p : String)
  | submitRequest (req : SHRequest)
  | getData (data_folder : String) (save_data : Bool)
deriving DecidableEq, Repr

/-- Whether an event is a directory creation. -/
def isMkdirEv : DlEvent → Bool
  | DlEvent.mkdirEv _ => true
  | _ => false

/-- Whether an event is a request submission. -/
def isSubmitEv : DlEvent → Bool
  | DlEvent.submitRequest _ => true
  | _ => false

/-- The guarded directory creation pattern of lines 136-140:
`if not os.path.exists(p): os.mkdir(p)`.  Returns the new filesystem and
the mkdir events performed. -/
def mkdirIfMissing (fs : FS) (p : String) : Except String (FS × List DlEvent) :=
  if pathExists fs p then Except.ok (fs, [])
  else
    match mkdirFS fs p with
    | Except.ok fs1 => Except.ok (fs1, [DlEvent.mkdirEv p])
    | Except.error e => Except.error e

/-- The per-scene output directory `<path>/data/<id>` (`data_folder`,
line 142). -/
def data_folder_of (path id : String) : String :=
  joinPath (joinPath path "data") id

/-- The `request_all_bands = SentinelHubRequest(...)` construction of
lines 172-187: the fixed evalscript, the Sentinel-2 L2A collection, the
single date as both interval endpoints, `maxcc=0.2`, least-cloud-cover
mosaicking, one TIFF response, and the given bbox, size and config. -/
def request_all_bands (config : SHConfig) (data_folder : String) (bbox : BBox)
    (size : Nat × Nat) (new_date : String) : SHRequest :=
  { data_folder := data_folder
    evalscript := evalscript_all_bands
    data_collection := DataCollection.sentinel2L2A
    time_interval := (new_date, new_date)
    maxcc := 2 / 10
    mosaicking_order := MosaickingOrder.leastCC
    responses := [("default", MimeType.tiff)]
    bbox := bbox
    size := size
    config := config }

/-- `download_data(config, path, id, bbox, new_date)` (lines 120-198).
`bboxToDim` stands for the external `bbox_to_dimensions` function.
Creates the two directory levels if missing, computes the size at
resolution 10, builds the request with the fixed evalscript, the single
date used as both interval endpoints, `maxcc=0.2`, least-cloud-cover
mosaicking, one TIFF response, and triggers `get_data(save_data=True)`.
Returns the new filesystem, the request and the ordered event trace. -/
def download_data (bboxToDim : BBox → ℚ → Nat × Nat) (config : SHConfig)
    (path id : String) (bbox : BBox) (new_date : String) (fs : FS) :
    Except String (FS × SHRequest × List DlEvent) :=
  match mkdirIfMissing fs (joinPath path "data") with
  | Except.error e => Except.error e
  | Except.ok (fs1, evA) =>
    match mkdirIfMissing fs1 (joinPath (joinPath path "data") id) with
    | Except.error e => Except.error e
    | Except.ok (fs2, evB) =>
      let data_folder := joinPath (joinPath path "data") id
      let size := bboxToDim bbox 10
      let req := request_all_bands config data_folder bbox size new_date
      Except.ok (fs2, req,
        evA ++ evB ++ [DlEvent.submitRequest req,
                       DlEvent.getData data_folder true])

/-- Events of the `__main__` selection loop (lines 224-233). -/
inductive LoopEvent where
  | prompt (r : SceneRecord)
  | download (id : String) (new_date : String)
deriving DecidableEq, Repr

/-- Accept tokens of the selection loop (line 227), compared by `==`,
hence case-sensitively. -/
def isAccept (s : String) : Bool :=
  s = "yes" || s = "y" || s = "oui" || s = "o"

/-- Abort tokens of the selection loop (line 232). -/
def isExit (s : String) : Bool :=
  s = "exit" || s = "e"

/-- The `__main__` selection loop (lines 224-233) over the search results,
consuming one interactive input per iteration.  Each iteration prints the
record and prompts; an accept token triggers one `download_data` call with
the record id and the datetime truncated to 10 characters; an exit token
then calls `sys.exit()`, ending the whole loop.  Returns the event trace
and whether the loop was aborted by `sys.exit()`. -/
def selectionLoop : List SceneRecord → List String → List LoopEvent × Bool
  | [], _ => ([], false)
  | r :: rs, inputs =>
    let keep_it := (readline inputs).1
    let rest := (readline inputs).2
    let dl : List LoopEvent :=
      if isAccept keep_it then [LoopEvent.download r.id (r.datetime.take 10)]
      else []
    if isExit keep_it then (LoopEvent.prompt r :: dl, true)
    else
      let cont := selectionLoop rs rest
      (LoopEvent.prompt r :: (dl ++ cont.1), cont.2)

/-- How a run of the script ends: `sys.exit(code)` (a bare `sys.exit()` is
`exited 0`), falling off the end of the module (exit status 0), or an
uncaught exception (non-zero exit status with a traceback). -/
inductive RunOutcome where
  | exited (code : Nat)
  | completed
  | uncaught (e : String)
deriving DecidableEq, Repr

/-- The process exit status of an outcome: `sys.exit(c)` exits with `c`,
completion exits with `0`, an uncaught exception exits non-zero (CPython
uses 1). -/
def exitCode : RunOutcome → Nat
  | RunOutcome.exited c => c
  | RunOutcome.completed => 0
  | RunOutcome.uncaught _ => 1

/-- The external environment of one run: the outcome of
`open(path_txt, "r+")` (the file's lines, or a raised exception), the
outcome of `config.save()`, the outcome of `catalog.get_info()` inside
`get_catalog_info`, the remote catalog, the interactive inputs of the
selection loop and the interactive credential prompts. -/
structure Env where
  credFile : Except String (List String)
  saveOutcome : Except String Unit
  catalogInfo : Except String Unit
  remote : SearchQuery → List SceneRecord
  inputs : List String
  prompts : Prompts

/-- The bbox built by line 216:
`BBox((coordinates[0], ..., coordinates[3]), crs=CRS.WGS84)`. -/
def bboxOfCoords (coords : ℚ × ℚ × ℚ × ℚ) : BBox :=
  { x_min := coords.1, y_min := coords.2.1
    x_max := coords.2.2.1, y_max := coords.2.2.2, crs := CRS.wgs84 }

/-- The `__main__` block (lines 200-233), with the user-supplied
placeholders `your_path` / coordinates / dates as parameters.  The
`try`/`except Exception` wraps both the `open` call and `authenticate`
(lines 205-210): any exception raised by either is printed and followed by
a bare `sys.exit()`.  `get_catalog_info` runs outside the `try`, so its
failure propagates uncaught.  Then the bbox is built, `search_data` runs,
and the selection loop consumes the inputs; an exit token ends the run
via the bare `sys.exit()` of line 233. -/
def mainRun (env : Env) (coords : ℚ × ℚ × ℚ × ℚ)
    (time_interval : String × String) : RunOutcome × List LoopEvent :=
  match env.credFile with
  | Except.error _ => (RunOutcome.exited 0, [])
  | Except.ok lines =>
    match authenticate lines env.prompts env.saveOutcome with
    | Except.error _ => (RunOutcome.exited 0, [])
    | Except.ok (config, _) =>
      match env.catalogInfo with
      | Except.error e => (RunOutcome.uncaught e, [])
      | Except.ok _ =>
        let bbox := bboxOfCoords coords
        let result_search := (search_data env.remote bbox time_interval config).1
        let run := selectionLoop result_search env.inputs
        (if run.2 then RunOutcome.exited 0 else RunOutcome.completed, run.1)

/-! ## Helper lemmas -/

/-- A path just created exists. -/
lemma pathExists_cons_self (fs : FS) (p : String) : pathExists (p :: fs) p = true := by
  simp [pathExists]

/-- Creating a path preserves existing paths. -/
lemma pathExists_cons_of (fs : FS) (p q : String) (h : pathExists fs q = true) :
    pathExists (p :: fs) q = true := by
  simp [pathExists] at h ⊢
  exact Or.inr h

/-- The guarded mkdir of lines 136-140 never fails: it returns a
filesystem containing the path, performs only mkdir events, does not
disturb other paths, and is a no-op when the path already exists. -/
lemma mkdirIfMissing_ok (fs : FS) (p : String) :
    ∃ fs1 evs, mkdirIfMissing fs p = Except.ok (fs1, evs)
      ∧ pathExists fs1 p = true
      ∧ (∀ e ∈ evs, isMkdirEv e = true)
      ∧ (∀ q, pathExists fs q = true → pathExists fs1 q = true)
      ∧ (pathExists fs p = true → fs1 = fs ∧ evs = []) := by
  by_cases h : pathExists fs p = true
  · refine ⟨fs, [], ?_, h, ?_, ?_, ?_⟩
    · simp [mkdirIfMissing, h]
    · intro e he; cases he
    · intro q hq; exact hq
    · intro _; exact ⟨rfl, rfl⟩
  · have h' : pathExists fs p = false := by
      cases hb : pathExists fs p
      · rfl
      · exact absurd hb h
    refine ⟨p :: fs, [DlEvent.mkdirEv p], ?_, pathExists_cons_self fs p, ?_, ?_, ?_⟩
    · simp [mkdirIfMissing, mkdirFS, h']
    · intro e he
      simp at he
      subst he
      rfl
    · intro q hq; exact pathExists_cons_of fs p q hq
    · intro hc; exact absurd hc h

/-- `download_data` always succeeds and returns: a filesystem containing
both directory levels, the request built by `request_all_bands` on
`data_folder_of path id` and size `bboxToDim bbox 10`, and an event trace
consisting of some mkdir events followed by exactly the request
submission and the saving `get_data` call.  When both directories already
exist, nothing is created. -/
lemma download_data_ok (bboxToDim : BBox → ℚ → Nat × Nat) (config : SHConfig)
    (path id : String) (bbox : BBox) (new_date : String) (fs : FS) :
    ∃ fs2 evA evB,
      download_data bboxToDim config path id bbox new_date fs =
        Except.ok (fs2,
          request_all_bands config (data_folder_of path id) bbox (bboxToDim bbox 10) new_date,
          evA ++ evB ++
            [DlEvent.submitRequest
              (request_all_bands config (data_folder_of path id) bbox (bboxToDim bbox 10) new_date),
             DlEvent.getData (data_folder_of path id) true])
      ∧ (∀ e ∈ evA, isMkdirEv e = true)
      ∧ (∀ e ∈ evB, isMkdirEv e = true)
      ∧ pathExists fs2 (joinPath path "data") = true
      ∧ pathExists fs2 (data_folder_of path id) = true
      ∧ (pathExists fs (joinPath path "data") = true →
          pathExists fs (data_folder_of path id) = true →
          fs2 = fs ∧ evA = [] ∧ evB = []) := by
  obtain ⟨fs1, evA, h1, hp1, hmk1, hmono1, hskip1⟩ :=
    mkdirIfMissing_ok fs (joinPath path "data")
  obtain ⟨fs2, evB, h2, hp2, hmk2, hmono2, hskip2⟩ :=
    mkdirIfMissing_ok fs1 (joinPath (joinPath path "data") id)
  refine ⟨fs2, evA, evB, ?_, hmk1, hmk2, hmono2 _ hp1, hp2, ?_⟩
  · simp only [download_data, h1, h2, data_folder_of]
  · intro hd hs
    obtain ⟨hfs1, hevA⟩ := hskip1 hd
    subst hfs1
    obtain ⟨hfs2, hevB⟩ := hskip2 hs
    exact ⟨hfs2, hevA, hevB⟩

/-- An accept token is never an exit token. -/
lemma isExit_eq_false_of_isAccept (s : String) (h : isAccept s = true) :
    isExit s = false := by
  simp [isAccept] at h
  rcases h with ((h | h) | h) | h <;> subst h <;> rfl

/-- An exit token is never an accept token. -/
lemma isAccept_eq_false_of_isExit (s : String) (h : isExit s = true) :
    isAccept s = false := by
  simp [isExit] at h
  rcases h with h | h <;> subst h <;> rfl

/-- One loop iteration on an accept token: the record is prompted, one
download with the truncated date is triggered, and the loop continues. -/
lemma selectionLoop_cons_accept (r : SceneRecord) (rs : List SceneRecord)
    (i : String) (is : List String) (h : isAccept i = true) :
    selectionLoop (r :: rs) (i :: is) =
      (LoopEvent.prompt r :: LoopEvent.download r.id (r.datetime.take 10) ::
        (selectionLoop rs is).1, (selectionLoop rs is).2) := by
  have hE := isExit_eq_false_of_isAccept i h
  simp [selectionLoop, readline, h, hE]

/-- One loop iteration on an exit token: the record is prompted, nothing
is downloaded, and the whole loop terminates. -/
lemma selectionLoop_cons_exit (r : SceneRecord) (rs : List SceneRecord)
    (i : String) (is : List String) (h : isExit i = true) :
    selectionLoop (r :: rs) (i :: is) = ([LoopEvent.prompt r], true) := by
  have hA := isAccept_eq_false_of_isExit i h
  simp [selectionLoop, readline, h, hA]

/-- One loop iteration on any other input: the record is prompted,
nothing is downloaded, and the loop continues. -/
lemma selectionLoop_cons_other (r : SceneRecord) (rs : List SceneRecord)
    (i : String) (is : List String) (hA : isAccept i = false)
    (hE : isExit i = false) :
    selectionLoop (r :: rs) (i :: is) =
      (LoopEvent.prompt r :: (selectionLoop rs is).1, (selectionLoop rs is).2) := by
  simp [selectionLoop, readline, hA, hE]

/-! ## Concrete objects used by witnesses and counterexamples -/

/-- A concrete stand-in for the external `bbox_to_dimensions`. -/
def btd0 : BBox → ℚ → Nat × Nat := fun _ _ => (100, 100)

/-- A concrete bounding box (the spec's end-to-end scenario box). -/
def bbox0 : BBox :=
  { x_min := 13, y_min := 52, x_max := 27 / 2, y_max := 105 / 2, crs := CRS.wgs84 }

/-- A default config. -/
def config0 : SHConfig := {}

/-- A concrete scene record. -/
def rec0 : SceneRecord :=
  { id := "S1", datetime := "2023-06-05T10:30:00Z", cloud_cover := 1 }

/-- The filesystem produced by a first `download_data` on an empty
filesystem with path `root` and scene id `S1`. -/
def fsAfterFirst : FS := ["root/data/S1", "root/data"]

/-- The request produced by that run. -/
def req0 : SHRequest := request_all_bands config0 "root/data/S1" bbox0 (100, 100) "2023-06-05"

/-- Empty remote catalog. -/
def emptyRemote : SearchQuery → List SceneRecord := fun _ => []

/-- Empty credential prompts. -/
def prompts0 : Prompts := { instance_id := "", client_id := "", client_secret := "" }

/-- Concrete coordinates for the main-block placeholders. -/
def coords0 : ℚ × ℚ × ℚ × ℚ := (13, 52, 27 / 2, 105 / 2)

/-- Concrete time interval for the main-block placeholders. -/
def ti0 : String × String := ("2023-06-01", "2023-06-30")

/-- An environment where opening the credential file raises. -/
def envOpenFail : Env :=
  { credFile := Except.error "FileNotFoundError: parameters.txt"
    saveOutcome := Except.ok ()
    catalogInfo := Except.ok ()
    remote := emptyRemote
    inputs := []
    prompts := prompts0 }

/-- An environment where the credential file opens but `config.save()`
raises inside `authenticate`. -/
def envSaveFail : Env :=
  { credFile := Except.ok ["A", "B", "C"]
    saveOutcome := Except.error "PermissionError: config.toml"
    catalogInfo := Except.ok ()
    remote := emptyRemote
    inputs := []
    prompts := prompts0 }

/-- An environment where authentication succeeds but the catalog-info
call (after the try block) raises. -/
def envCatFail : Env :=
  { credFile := Except.ok ["A", "B", "C"]
    saveOutcome := Except.ok ()
    catalogInfo := Except.error "ConnectionError"
    remote := emptyRemote
    inputs := []
    prompts := prompts0 }

/-- An environment where every fallible external call succeeds. -/
def envAllOk : Env :=
  { credFile := Except.ok ["A", "B", "C"]
    saveOutcome := Except.ok ()
    catalogInfo := Except.ok ()
    remote := emptyRemote
    inputs := []
    prompts := prompts0 }

/-! ## Claims -/

/-- C3: in the selection loop, an input equal to one of the
case-sensitive tokens `yes`, `y`, `oui`, `o` triggers exactly one
download invocation for the prompted record (with its id and its
datetime truncated to the day) and the loop continues; an input equal to
`exit` or `e` terminates iteration with no download, no further prompt
and no further download; any other input neither downloads nor halts
iteration. -/
theorem selector_three_way (r : SceneRecord) (rs : List SceneRecord)
    (i : String) (is : List String) :
    (isAccept i = true →
      selectionLoop (r :: rs) (i :: is) =
        (LoopEvent.prompt r :: LoopEvent.download r.id (r.datetime.take 10) ::
          (selectionLoop rs is).1, (selectionLoop rs is).2)) ∧
    (isExit i = true →
      selectionLoop (r :: rs) (i :: is) = ([LoopEvent.prompt r], true)) ∧
    (isAccept i = false → isExit i = false →
      selectionLoop (r :: rs) (i :: is) =
        (LoopEvent.prompt r :: (selectionLoop rs is).1, (selectionLoop rs is).2)) :=
  ⟨selectionLoop_cons_accept r rs i is,
   selectionLoop_cons_exit r rs i is,
   selectionLoop_cons_other r rs i is⟩

/-- Witness for C3 at the concrete record `rec0` and the concrete inputs
`y`, `e`, `no` and the case-mismatched `Yes`. -/
theorem selector_three_way_witness :
    selectionLoop [rec0] ["y"] =
      ([LoopEvent.prompt rec0, LoopEvent.download "S1" "2023-06-05"], false) ∧
    selectionLoop [rec0] ["e"] = ([LoopEvent.prompt rec0], true) ∧
    selectionLoop [rec0] ["no"] = ([LoopEvent.prompt rec0], false) ∧
    selectionLoop [rec0] ["Yes"] = ([LoopEvent.prompt rec0], false) := by
  refine ⟨?_, ?_, ?_, ?_⟩
  · have h := (selector_three_way rec0 [] "y" []).1 (by decide)
    simpa [selectionLoop, rec0] using h
  · exact (selector_three_way rec0 [] "e" []).2.1 (by decide)
  · have h := (selector_three_way rec0 [] "no" []).2.2 (by decide) (by decide)
    simpa [selectionLoop] using h
  · have h := (selector_three_way rec0 [] "Yes" []).2.2 (by decide) (by decide)
    simpa [selectionLoop] using h

/-- C4: `download_data` always succeeds and, before the request is
submitted and the save is triggered, both directory levels
`<path>/data` and `<path>/data/<id>` exist in the resulting filesystem:
the event trace is some mkdir events followed by exactly the submission
and the saving `get_data` call, both scoped to the scene directory, and
the filesystem in force at those two events contains both levels. -/
theorem download_creates_dirs_first (bboxToDim : BBox → ℚ → Nat × Nat)
    (config : SHConfig) (path id : String) (bbox : BBox) (new_date : String)
    (fs : FS) :
    ∃ fs2 req evs1,
      download_data bboxToDim config path id bbox new_date fs =
        Except.ok (fs2, req,
          evs1 ++ [DlEvent.submitRequest req,
                   DlEvent.getData (data_folder_of path id) true]) ∧
      (∀ e ∈ evs1, isMkdirEv e = true) ∧
      pathExists fs2 (joinPath path "data") = true ∧
      pathExists fs2 (data_folder_of path id) = true ∧
      req.data_folder = data_folder_of path id := by
  obtain ⟨fs2, evA, evB, heq, hmkA, hmkB, hd, hs, _⟩ :=
    download_data_ok bboxToDim config path id bbox new_date fs
  refine ⟨fs2,
    request_all_bands config (data_folder_of path id) bbox (bboxToDim bbox 10) new_date,
    evA ++ evB, ?_, ?_, hd, hs, rfl⟩
  · rw [heq, List.append_assoc]
  · intro e he
    rcases List.mem_append.mp he with h | h
    · exact hmkA e h
    · exact hmkB e h

/-- C8: directory creation in `download_data` is idempotent: if a call
succeeds, a second call with the same path and scene id succeeds as well
(no `FileExistsError` from the already-existing `<path>/data` or
`<path>/data/<id>`), leaves the filesystem unchanged and performs no
mkdir event at all. -/
theorem download_idempotent_dirs (bboxToDim : BBox → ℚ → Nat × Nat)
    (config : SHConfig) (path id : String) (bbox : BBox) (new_date : String)
    (fs fs1 : FS) (r1 : SHRequest) (e1 : List DlEvent)
    (h : download_data bboxToDim config path id bbox new_date fs =
      Except.ok (fs1, r1, e1)) :
    ∃ r2, download_data bboxToDim config path id bbox new_date fs1 =
      Except.ok (fs1, r2,
        [DlEvent.submitRequest r2, DlEvent.getData (data_folder_of path id) true]) := by
  obtain ⟨fs2, evA, evB, heq, _, _, hd, hs, _⟩ :=
    download_data_ok bboxToDim config path id bbox new_date fs
  rw [h] at heq
  have hfs : fs1 = fs2 := congrArg (fun x => x.1) (Except.ok.inj heq)
  subst hfs
  obtain ⟨fs3, evA2, evB2, heq2, _, _, _, _, hskip⟩ :=
    download_data_ok bboxToDim config path id bbox new_date fs1
  obtain ⟨hfs3, hevA2, hevB2⟩ := hskip hd hs
  subst hfs3
  subst hevA2
  subst hevB2
  exact ⟨_, by simpa using heq2⟩

/-- Witness for C8: a first run of `download_data` on the empty
filesystem with path `root` and scene id `S1`, then the theorem applied
to it. -/
theorem download_idempotent_dirs_witness :
    ∃ r2, download_data btd0 config0 "root" "S1" bbox0 "2023-06-05" fsAfterFirst =
      Except.ok (fsAfterFirst, r2,
        [DlEvent.submitRequest r2,
         DlEvent.getData (data_folder_of "root" "S1") true]) :=
  download_idempotent_dirs btd0 config0 "root" "S1" bbox0 "2023-06-05"
    [] fsAfterFirst req0
    [DlEvent.mkdirEv "root/data", DlEvent.mkdirEv "root/data/S1",
     DlEvent.submitRequest req0, DlEvent.getData "root/data/S1" true]
    (by rfl)

/-- C5: for every readable credential source with three lines, the
loader assigns exactly the three whitespace-trimmed lines, in file
order, to instance id, client id and client secret — no validation
beyond trimming — and that is exactly the config handed to
`config.save()`. -/
theorem credential_loader_trims_in_order (a b c : String) (prompts : Prompts) :
    readCredentials [a, b, c] =
      { instance_id := pyStrip a, client_id := pyStrip b, client_secret := pyStrip c } ∧
    ∃ cfg, authenticate [a, b, c] prompts (Except.ok ()) =
      Except.ok (cfg,
        some { instance_id := pyStrip a, sh_client_id := pyStrip b,
               sh_client_secret := pyStrip c }) :=
  ⟨rfl, ⟨_, rfl⟩⟩

/-- C6: for every bounding box, time interval and session config,
`search_data` issues exactly one catalog query, whose filter is the
cloud-cover-strictly-below-2 predicate and whose field projection
includes only id, datetime and cloud cover (and excludes nothing), and
returns exactly the remote service's materialized sequence, in the
remote order. -/
theorem search_single_fixed_query (remote : SearchQuery → List SceneRecord)
    (bbox : BBox) (time_interval : String × String) (config : SHConfig) :
    ∃ q : SearchQuery,
      search_data remote bbox time_interval config = (remote q, [q]) ∧
      q.filter = "eo:cloud_cover < 2" ∧
      q.includeFields = ["id", "properties.datetime", "properties.eo:cloud_cover"] ∧
      q.excludeFields = [] ∧
      q.data_collection = DataCollection.sentinel2L2A ∧
      q.bbox = bbox ∧ q.time = time_interval ∧ q.config = config :=
  ⟨_, rfl, rfl, rfl, rfl, rfl, rfl, rfl, rfl⟩

/-- C7: for every accepted scene, the request submitted by
`download_data` has size computed from the bounding box at resolution
10, the fixed evalscript with exactly the three bands B02, B03, B04 and
INT16 sample depth, the single acquisition day as both interval
endpoints, least-cloud-cover mosaicking, a single TIFF response, the
given bounding box, and it is the only request submitted; and the date
the selection loop passes for an accepted record is the record's
datetime truncated to 10 characters (the day). -/
theorem download_request_shape (bboxToDim : BBox → ℚ → Nat × Nat)
    (config : SHConfig) (path id : String) (bbox : BBox) (new_date : String)
    (fs fs2 : FS) (req : SHRequest) (evs : List DlEvent)
    (h : download_data bboxToDim config path id bbox new_date fs =
      Except.ok (fs2, req, evs)) :
    req.size = bboxToDim bbox 10 ∧
    req.evalscript = evalscript_all_bands ∧
    req.evalscript.inputBands = ["B02", "B03", "B04"] ∧
    req.evalscript.sampleType = "INT16" ∧
    req.evalscript.outputBands = 3 ∧
    req.time_interval = (new_date, new_date) ∧
    req.mosaicking_order = MosaickingOrder.leastCC ∧
    req.responses = [("default", MimeType.tiff)] ∧
    req.bbox = bbox ∧
    req.data_collection = DataCollection.sentinel2L2A ∧
    evs.filter isSubmitEv = [DlEvent.submitRequest req] ∧
    (∀ r : SceneRecord, ∀ rs is i, isAccept i = true →
      LoopEvent.download r.id (r.datetime.take 10) ∈
        (selectionLoop (r :: rs) (i :: is)).1) := by
  obtain ⟨fs2', evA, evB, heq, hmkA, hmkB, _, _, _⟩ :=
    download_data_ok bboxToDim config path id bbox new_date fs
  rw [h] at heq
  have hreq : req =
      request_all_bands config (data_folder_of path id) bbox (bboxToDim bbox 10) new_date :=
    congrArg (fun x => x.2.1) (Except.ok.inj heq)
  have hevs : evs = evA ++ evB ++
      [DlEvent.submitRequest req, DlEvent.getData (data_folder_of path id) true] := by
    have hev := congrArg (fun x => x.2.2) (Except.ok.inj heq)
    simp only at hev
    rw [← hreq] at hev
    exact hev
  subst hreq
  refine ⟨rfl, rfl, rfl, rfl, rfl, rfl, rfl, rfl, rfl, rfl, ?_, ?_⟩
  · rw [hevs]
    rw [List.filter_append, List.filter_append]
    have hA : evA.filter isSubmitEv = [] := by
      rw [List.filter_eq_nil_iff]
      intro e he
      have := hmkA e he
      cases e with
      | mkdirEv p => simp [isSubmitEv]
      | submitRequest r => simp [isMkdirEv] at this
      | getData d s => simp [isSubmitEv]
    have hB : evB.filter isSubmitEv = [] := by
      rw [List.filter_eq_nil_iff]
      intro e he
      have := hmkB e he
      cases e with
      | mkdirEv p => simp [isSubmitEv]
      | submitRequest r => simp [isMkdirEv] at this
      | getData d s => simp [isSubmitEv]
    rw [hA, hB]
    simp [isSubmitEv]
  · intro r rs is i hi
    rw [selectionLoop_cons_accept r rs i is hi]
    simp

/-- Witness for C7: the request of the concrete first run of
`download_data` has the stated shape, and accepting `rec0` with `oui`
downloads its id with the truncated date. -/
theorem download_request_shape_witness :
    req0.size = btd0 bbox0 10 ∧
    req0.time_interval = ("2023-06-05", "2023-06-05") ∧
    req0.evalscript.inputBands = ["B02", "B03", "B04"] ∧
    req0.evalscript.sampleType = "INT16" ∧
    LoopEvent.download "S1" "2023-06-05" ∈ (selectionLoop [rec0] ["oui"]).1 := by
  have h := download_request_shape btd0 config0 "root" "S1" bbox0 "2023-06-05"
    [] fsAfterFirst req0
    [DlEvent.mkdirEv "root/data", DlEvent.mkdirEv "root/data/S1",
     DlEvent.submitRequest req0, DlEvent.getData "root/data/S1" true]
    (by rfl)
  refine ⟨h.1, h.2.2.2.2.2.1, h.2.2.1, h.2.2.2.1, ?_⟩
  have hm := h.2.2.2.2.2.2.2.2.2.2.2 rec0 [] [] "oui" (by decide)
  simpa [rec0] using hm

/-- C9: every request submitted by `download_data` additionally
constrains maximum cloud coverage to 0.2 (20 percent) via `maxcc` — a
filter independent of, and strictly looser than, the catalog search's
strictly-below-2-percent filter. -/
theorem download_maxcc_point_two (bboxToDim : BBox → ℚ → Nat × Nat)
    (config : SHConfig) (path id : String) (bbox : BBox) (new_date : String)
    (fs fs2 : FS) (req : SHRequest) (evs : List DlEvent)
    (h : download_data bboxToDim config path id bbox new_date fs =
      Except.ok (fs2, req, evs)) :
    req.maxcc = 2 / 10 ∧ (2 / 100 : ℚ) < req.maxcc := by
  obtain ⟨fs2', evA, evB, heq, _, _, _, _, _⟩ :=
    download_data_ok bboxToDim config path id bbox new_date fs
  rw [h] at heq
  have hreq : req =
      request_all_bands config (data_folder_of path id) bbox (bboxToDim bbox 10) new_date :=
    congrArg (fun x => x.2.1) (Except.ok.inj heq)
  subst hreq
  exact ⟨rfl, by norm_num [request_all_bands]⟩

/-- Witness for C9: the concrete first-run request carries maxcc 0.2. -/
theorem download_maxcc_point_two_witness :
    req0.maxcc = 2 / 10 ∧ (2 / 100 : ℚ) < req0.maxcc :=
  download_maxcc_point_two btd0 config0 "root" "S1" bbox0 "2023-06-05"
    [] fsAfterFirst req0
    [DlEvent.mkdirEv "root/data", DlEvent.mkdirEv "root/data/S1",
     DlEvent.submitRequest req0, DlEvent.getData "root/data/S1" true]
    (by rfl)

/-- C10: `authenticate` persists the configuration before the emptiness
check on client id and client secret, so the persisted snapshot always
holds exactly the values loaded from the file; when the prompts fire
(because a loaded client field is empty), the prompted values live only
in the returned in-memory config, never in the persisted snapshot. -/
theorem save_precedes_prompts (lines : List String) (prompts : Prompts)
    (cfg : SHConfig) (saved : Option SHConfig)
    (h : authenticate lines prompts (Except.ok ()) = Except.ok (cfg, saved)) :
    saved = some (fileConfig lines) ∧
    ((fileConfig lines).sh_client_id = "" ∨ (fileConfig lines).sh_client_secret = "" →
      cfg = { instance_id := prompts.instance_id
              sh_client_id := prompts.client_id
              sh_client_secret := prompts.client_secret }) := by
  simp only [authenticate, Except.ok.injEq, Prod.mk.injEq] at h
  obtain ⟨hc, hs⟩ := h
  constructor
  · rw [← hs]
    rfl
  · intro hcond
    rw [← hc]
    rw [if_pos]
    exact hcond

/-- Prompted values for the C10 witness. -/
def promptsW : Prompts := { instance_id := "PI", client_id := "PC", client_secret := "PS" }

/-- The in-memory config a prompted run returns. -/
def cfgW : SHConfig := { instance_id := "PI", sh_client_id := "PC", sh_client_secret := "PS" }

/-- The persisted snapshot of that run: the file's values. -/
def savedW : Option SHConfig :=
  some { instance_id := "A", sh_client_id := "", sh_client_secret := "S" }

/-- Witness for C10: a file whose client id line is empty, with distinct
prompted values; the persisted snapshot still holds the file's values
while the returned config holds the prompted ones. -/
theorem save_precedes_prompts_witness :
    authenticate ["A", "", "S"] promptsW (Except.ok ()) = Except.ok (cfgW, savedW) ∧
    savedW = some (fileConfig ["A", "", "S"]) ∧
    ((fileConfig ["A", "", "S"]).sh_client_id = "" ∨
        (fileConfig ["A", "", "S"]).sh_client_secret = "" →
      cfgW = { instance_id := promptsW.instance_id
               sh_client_id := promptsW.client_id
               sh_client_secret := promptsW.client_secret }) :=
  ⟨by rfl, save_precedes_prompts ["A", "", "S"] promptsW cfgW savedW (by rfl)⟩

/-- An environment for an aborted run: everything succeeds, the catalog
returns one scene, and the user answers the prompt with `e`. -/
def envAbort : Env :=
  { credFile := Except.ok ["A", "B", "C"]
    saveOutcome := Except.ok ()
    catalogInfo := Except.ok ()
    remote := fun _ => [rec0]
    inputs := ["e"]
    prompts := prompts0 }

/-- C1 counterexample: on the credential-file-open-failure path the
process exits immediately, but via an argument-less `sys.exit()`, whose
exit status is 0 — not non-zero as claimed. -/
theorem open_failure_exit_status_zero :
    envOpenFail.credFile = Except.error "FileNotFoundError: parameters.txt" ∧
    mainRun envOpenFail coords0 ti0 = (RunOutcome.exited 0, []) ∧
    exitCode (mainRun envOpenFail coords0 ti0).1 = 0 :=
  ⟨rfl, rfl, rfl⟩

/-- C1 (amended): on failure to open the credential file the process
exits immediately (no prompts, no downloads) with exit status 0 — both
`sys.exit()` calls of the script are argument-less, so every `sys.exit`
termination carries status 0; when the modelled fallible calls all
succeed, the run exits with status 0, aborting at the first exit token
if one is entered and otherwise running to completion. -/
theorem exit_status_discipline (env : Env) (coords : ℚ × ℚ × ℚ × ℚ)
    (ti : String × String) :
    (∀ e, env.credFile = Except.error e →
      mainRun env coords ti = (RunOutcome.exited 0, [])) ∧
    (∀ c, (mainRun env coords ti).1 = RunOutcome.exited c → c = 0) ∧
    (∀ lines, env.credFile = Except.ok lines → env.saveOutcome = Except.ok () →
      env.catalogInfo = Except.ok () → exitCode (mainRun env coords ti).1 = 0) ∧
    (∀ lines cfg saved, env.credFile = Except.ok lines →
      env.saveOutcome = Except.ok () → env.catalogInfo = Except.ok () →
      authenticate lines env.prompts (Except.ok ()) = Except.ok (cfg, saved) →
      (mainRun env coords ti).1 =
        if (selectionLoop
              (search_data env.remote (bboxOfCoords coords) ti cfg).1
              env.inputs).2
        then RunOutcome.exited 0 else RunOutcome.completed) := by
  refine ⟨?_, ?_, ?_, ?_⟩
  · intro e he
    simp [mainRun, he]
  · intro c hc
    unfold mainRun at hc
    rcases h1 : env.credFile with e | lines <;> rw [h1] at hc
    · simp at hc
      exact hc.symm
    · rcases h2 : env.saveOutcome with e2 | u <;>
        simp only [authenticate, h2] at hc
      · simp at hc
        exact hc.symm
      · rcases h3 : env.catalogInfo with e3 | v <;> rw [h3] at hc
        · simp at hc
        · simp only at hc
          split at hc
          all_goals split at hc
          all_goals first
            | exact (RunOutcome.exited.inj hc).symm
            | exact RunOutcome.noConfusion hc
  · intro lines h1 h2 h3
    simp only [mainRun, h1, h2, h3, authenticate]
    split <;> split <;> rfl
  · intro lines cfg saved h1 h2 h3 hauth
    simp only [mainRun, h1, h2, h3]
    rw [hauth]

/-- Witness for C1: the open-failure environment exits immediately with
status 0; the all-successful environment ends with status 0; the aborted
environment (exit token at the first prompt) exits with status 0. -/
theorem exit_status_discipline_witness :
    mainRun envOpenFail coords0 ti0 = (RunOutcome.exited 0, []) ∧
    exitCode (mainRun envAllOk coords0 ti0).1 = 0 ∧
    (mainRun envAbort coords0 ti0).1 = RunOutcome.exited 0 := by
  refine ⟨(exit_status_discipline envOpenFail coords0 ti0).1
      "FileNotFoundError: parameters.txt" rfl,
    (exit_status_discipline envAllOk coords0 ti0).2.2.1 ["A", "B", "C"] rfl rfl rfl,
    ?_⟩
  have h := (exit_status_discipline envAbort coords0 ti0).2.2.2 ["A", "B", "C"]
    { instance_id := "A", sh_client_id := "B", sh_client_secret := "C" }
    (some { instance_id := "A", sh_client_id := "B", sh_client_secret := "C" })
    rfl rfl rfl (by rfl)
  rw [h]
  rfl

/-- C2 counterexample: a `config.save()` failure inside `authenticate`
does not propagate unhandled — it is caught by the `except Exception`
clause of the main block (which wraps the `authenticate` call as well as
the `open`), printed, and followed by `sys.exit()`. -/
theorem save_failure_is_caught :
    envSaveFail.saveOutcome = Except.error "PermissionError: config.toml" ∧
    mainRun envSaveFail coords0 ti0 = (RunOutcome.exited 0, []) ∧
    (∀ e, (mainRun envSaveFail coords0 ti0).1 ≠ RunOutcome.uncaught e) := by
  refine ⟨rfl, rfl, ?_⟩
  intro e h
  rw [show (mainRun envSaveFail coords0 ti0).1 = RunOutcome.exited 0 from rfl] at h
  exact RunOutcome.noConfusion h

/-- C2 (amended): the single `except Exception` clause catches any
exception raised while opening the credential file or anywhere inside
`authenticate` — including the `config.save()` persistence call —
printing it and terminating via `sys.exit()`; failures of calls made
after `authenticate` returns (the catalog-info call) propagate unhandled
to the process boundary. -/
theorem try_block_coverage (env : Env) (coords : ℚ × ℚ × ℚ × ℚ)
    (ti : String × String) :
    (∀ e, env.credFile = Except.error e →
      mainRun env coords ti = (RunOutcome.exited 0, [])) ∧
    (∀ lines e, env.credFile = Except.ok lines →
      env.saveOutcome = Except.error e →
      mainRun env coords ti = (RunOutcome.exited 0, [])) ∧
    (∀ lines e, env.credFile = Except.ok lines →
      env.saveOutcome = Except.ok () → env.catalogInfo = Except.error e →
      mainRun env coords ti = (RunOutcome.uncaught e, [])) := by
  refine ⟨?_, ?_, ?_⟩
  · intro e he
    simp [mainRun, he]
  · intro lines e h1 h2
    simp [mainRun, h1, authenticate, h2]
  · intro lines e h1 h2 h3
    simp [mainRun, h1, authenticate, h2, h3]

/-- Witness for C2: the save-failure environment is caught and exits
with status 0; the catalog-failure environment propagates uncaught. -/
theorem try_block_coverage_witness :
    mainRun envSaveFail coords0 ti0 = (RunOutcome.exited 0, []) ∧
    mainRun envCatFail coords0 ti0 = (RunOutcome.uncaught "ConnectionError", []) :=
  ⟨(try_block_coverage envSaveFail coords0 ti0).2.1 ["A", "B", "C"]
      "PermissionError: config.toml" rfl rfl,
   (try_block_coverage envCatFail coords0 ti0).2.2 ["A", "B", "C"]
      "ConnectionError" rfl rfl rfl⟩

end SentinelDL
